import Mathlib

/-!
# P.A.W agent server — verification development

A shallow embedding of the P.A.W ("Programmable Automation Workspace")
agent server: the `PuppeteerAgent` class (agent module), the registry
HTTP handlers (api module) and the registry persistence helpers
(`saveAgentsToFile` / `loadAgentsFromFile` in utils).

The program drives an external headless browser, so every browser
interaction (launch, navigation, element wait, click, clipboard read,
screenshot, close) is a suspension point that can either succeed or
reject.  The embedding makes that environment explicit: each operation
takes an environment record whose boolean fields say, for each external
step the source awaits, whether that step succeeds or rejects, plus the
data the environment returns (participant rows, clipboard text, ...).
A JavaScript exception/promise rejection is modelled as an explicit
control-flow branch, exactly following the source's try/catch structure.

Browser-session and page handles carry no observable data of their own
in the source (only presence matters to the lifecycle logic), so they
are modelled as `Option Unit`: `some ()` is a live handle, `none` is
JavaScript `null`.
-/

namespace PAW

/-- The status literals of the `status` field of `PuppeteerAgent`:
`"idle" | "running" | "stopped" | "error" | "starting"`. -/
inductive AgentStatus
  | idle
  | running
  | stopped
  | error
  | starting
deriving DecidableEq, Repr

/-- `AgentConfig` from shared/types.ts: startUrl, headless, scrapeData,
muteAudio, and an optional `id` field. -/
structure AgentConfig where
  startUrl : String
  headless : Bool
  scrapeData : Bool
  muteAudio : Bool
  id : Option String := none
deriving DecidableEq, Repr

/-- The mutable fields of one `PuppeteerAgent` instance:
`browser: Browser | null`, `page: Page | null`, the immutable `config`,
and `status`.  A handle is `some ()` when non-null. -/
structure AgentState where
  browser : Option Unit
  page : Option Unit
  config : AgentConfig
  status : AgentStatus
deriving DecidableEq, Repr

/-- `new PuppeteerAgent(config)`: both handles null, status `"idle"`. -/
def mkAgent (c : AgentConfig) : AgentState :=
  { browser := none, page := none, config := c, status := .idle }

/-- `getStatus()`: a pure read of the status field. -/
def getStatus (a : AgentState) : AgentStatus := a.status

/-- `getConfig()`: a pure read of the config field. -/
def getConfig (a : AgentState) : AgentConfig := a.config

/-- `getData()`: a pure read of status and config. -/
def getData (a : AgentState) : AgentStatus × AgentConfig := (a.status, a.config)

/-- Environment of one `stop()` call: whether `page.close()` rejects and
whether `browser.close()` rejects. -/
structure StopEnv where
  pageCloseThrows : Bool
  browserCloseThrows : Bool
deriving DecidableEq, Repr

/-- Outcome of `stop()`: the agent state afterwards, and whether the call
rejected (propagated an exception to its caller). -/
structure StopResult where
  state : AgentState
  threw : Bool
deriving DecidableEq, Repr

/-- `PuppeteerAgent.stop()`:

* try-block: if `page` is non-null, `await page.close(); page = null` —
  a rejection of `close` is caught (so `page` keeps its value, since the
  assignment `this.page = null` is skipped) and only logged;
* finally-block: if `browser` is non-null, `await browser.close()`.
  This await is *not* wrapped in a try, so a rejection escapes the
  finally block: neither `this.browser = null` nor
  `this.status = "stopped"` runs and `stop()` itself rejects.
  When the close succeeds (or there is no browser) the status is set to
  `"stopped"` and `stop()` resolves. -/
def stopFn (a : AgentState) (e : StopEnv) : StopResult :=
  let a1 :=
    if a.page.isSome then
      if e.pageCloseThrows then a else { a with page := none }
    else a
  if a1.browser.isSome then
    if e.browserCloseThrows then
      { state := a1, threw := true }
    else
      { state := { a1 with browser := none, status := .stopped }, threw := false }
  else
    { state := { a1 with status := .stopped }, threw := false }

/-- Environment of one `start()` call: whether each awaited browser step
rejects, and the environments of the (up to two) internal `stop()`
calls — `stopOnNavError` for the `stop()` inside the navigation catch
block, `stopOnError` for the `stop()` inside the outer catch block. -/
structure StartEnv where
  launchThrows : Bool
  permThrows : Bool
  newPageThrows : Bool
  gotoThrows : Bool
  evalThrows : Bool
  stopOnNavError : StopEnv
  stopOnError : StopEnv
deriving DecidableEq, Repr

/-- Outcome of `start()`: the final agent state, the result
(`some b` = resolved with boolean `b`, `none` = rejected), and the trace
of agent states observed at each `await` in `start()`'s body, in source
order (launch, overridePermissions, newPage, goto, then either the
`evaluate` of the scrape branch or the states at the internal `stop()`
awaits of the catch blocks). -/
structure StartResult where
  final : AgentState
  result : Option Bool
  trace : List AgentState
deriving DecidableEq, Repr

/-- The outer catch block of `start()`: sets `status = "error"`, awaits
`this.stop()`, and re-throws; if that `stop()` itself rejects, its error
propagates instead.  Either way `start()` rejects. -/
def startOuterCatch (a : AgentState) (tr : List AgentState) (e : StopEnv) :
    StartResult :=
  let sE := { a with status := AgentStatus.error }
  let r := stopFn sE e
  { final := r.state, result := none, trace := tr ++ [sE, r.state] }

/-- `PuppeteerAgent.start()`:

* sets `status = "starting"`, then awaits `puppeteer.launch` (the
  executable-path branch on `existsSync` picks launch options only and
  is not observable in the agent state);
* awaits `context.overridePermissions(startUrl, [clipboard])`;
* awaits `browser.newPage()` and wires console forwarding;
* awaits `page.goto(startUrl, domcontentloaded)`; on rejection the
  inner catch sets `status = "error"`, awaits `stop()`, and re-throws;
* sets `status = "running"`; if `config.scrapeData`, awaits a page
  `evaluate` of the title;
* resolves with `true`.

Any rejection reaches the outer catch (`startOuterCatch`), so `start()`
either resolves with `true` or rejects. -/
def startFn (a : AgentState) (env : StartEnv) : StartResult :=
  let s0 := { a with status := AgentStatus.starting }
  if env.launchThrows then
    startOuterCatch s0 [s0] env.stopOnError
  else
    let s1 := { s0 with browser := some () }
    if env.permThrows then
      startOuterCatch s1 [s0, s1] env.stopOnError
    else if env.newPageThrows then
      startOuterCatch s1 [s0, s1, s1] env.stopOnError
    else
      let s2 := { s1 with page := some () }
      if env.gotoThrows then
        let sErr := { s2 with status := AgentStatus.error }
        let r1 := stopFn sErr env.stopOnNavError
        startOuterCatch r1.state [s0, s1, s1, s2, sErr] env.stopOnError
      else
        let s3 := { s2 with status := AgentStatus.running }
        if a.config.scrapeData then
          if env.evalThrows then
            startOuterCatch s3 [s0, s1, s1, s2, s3] env.stopOnError
          else
            { final := s3, result := some true, trace := [s0, s1, s1, s2, s3] }
        else
          { final := s3, result := some true, trace := [s0, s1, s1, s2] }

/-- A `StopEnv` in which neither teardown close call rejects. -/
def cleanStop (e : StopEnv) : Bool :=
  !e.pageCloseThrows && !e.browserCloseThrows

/-- A `StartEnv` whose internal teardown close calls never reject. -/
def cleanStart (env : StartEnv) : Bool :=
  cleanStop env.stopOnNavError && cleanStop env.stopOnError

/-- A sample config used by concrete witnesses and counterexamples. -/
def cfg0 : AgentConfig :=
  { startUrl := "https://jitsi.3git.eu/room1", headless := true,
    scrapeData := false, muteAudio := true, id := none }

/-- A running agent (live browser and page handles). -/
def agentRunning : AgentState :=
  { browser := some (), page := some (), config := cfg0, status := .running }

example :
    (startFn (mkAgent cfg0)
      ⟨false, false, false, false, false, ⟨false, false⟩, ⟨false, false⟩⟩).result
      = some true := by decide

example :
    (startFn (mkAgent cfg0)
      ⟨false, false, false, true, false, ⟨false, false⟩, ⟨false, false⟩⟩).final.status
      = .stopped := by decide

example :
    (stopFn agentRunning ⟨false, true⟩).threw = true := by decide

/-! ## Interaction routines

`_openParticipantsPane` / `_closeParticipantsPane`, `listParticipants`,
`clickShareLinkButton`, `getMeetingDuration`, `getScreenshot`.

`_closeParticipantsPane` catches every error internally, presses only
keys / clicks a close button / moves the mouse, and writes none of the
agent's fields, so it has no effect on the embedded state and is not
modelled as a separate function; the routines below call it only for
its browser-side effect. -/

/-- Environment of one `_openParticipantsPane` call: whether the
`waitForSelector` for `div.participants_pane` resolves within its 5 s
timeout and the subsequent `$` finds the pane, and whether the `$` for
`div.participants_pane-content` finds the content region. -/
structure PaneEnv where
  paneFound : Bool
  contentFound : Bool
deriving DecidableEq, Repr

/-- `PuppeteerAgent._openParticipantsPane()`: returns `false` when there
is no page; presses `p`; returns `false` when the pane wait times out
(the rejection is caught) or either element query comes back null;
otherwise `true`. -/
def openParticipantsPane (a : AgentState) (e : PaneEnv) : Bool :=
  if a.page = none then false
  else e.paneFound && e.contentFound

/-- One participant row as the environment presents it: whether the
name element is found (and its text), and whether the `videoMuted` /
`audioMuted` svg icons are present in the row. -/
structure ParticipantRow where
  nameFound : Bool
  name : String
  videoIcon : Bool
  audioIcon : Bool
deriving DecidableEq, Repr

/-- One entry of `listParticipants()`'s result:
`{name, videoMuted, audioMuted}` (the name is null when its element is
missing). -/
structure Participant where
  name : Option String
  videoMuted : Bool
  audioMuted : Bool
deriving DecidableEq, Repr

/-- Environment of one `listParticipants()` call: the pane environment,
the participant rows the `$$` row query returns, and whether one of the
per-row element queries / `evaluate` calls rejects. -/
structure ListEnv where
  pane : PaneEnv
  rows : List ParticipantRow
  rowQueryThrows : Bool
deriving DecidableEq, Repr

/-- `PuppeteerAgent.listParticipants()`: null when there is no page;
null when the pane fails to open; null when zero rows are found (the
pane is closed first); null when a per-row query rejects (caught by the
outer catch, which closes the pane); otherwise one `Participant` per
row, `videoMuted` / `audioMuted` being the presence of the
corresponding icon. -/
def listParticipants (a : AgentState) (env : ListEnv) :
    Option (List Participant) :=
  if a.page = none then none
  else if !openParticipantsPane a env.pane then none
  else if env.rows.isEmpty then none
  else if env.rowQueryThrows then none
  else
    some (env.rows.map fun r =>
      { name := if r.nameFound then some r.name else none,
        videoMuted := r.videoIcon, audioMuted := r.audioIcon })

/-! ### The invite-link pattern

`clickShareLinkButton` extracts the link with
`/https:\/\/jitsi.3git.eu\/[a-zA-Z0-9]+/` — note the two unescaped
dots, which match any character — and `clipboard.match(re)` returns the
leftmost match, with the greedy `[a-zA-Z0-9]+` taking the maximal
alphanumeric run.  The matcher below implements exactly that. -/

/-- One atom of the fixed pattern: a literal character or the regex
wildcard `.` (an unescaped dot). -/
inductive PatChar
  | lit (c : Char)
  | any
deriving DecidableEq, Repr

/-- `https:\/\/jitsi.3git.eu\/` as pattern atoms (dots are wildcards). -/
def linkPat : List PatChar :=
  ("https://jitsi".toList.map PatChar.lit) ++ [PatChar.any]
    ++ ("3git".toList.map PatChar.lit) ++ [PatChar.any]
    ++ ("eu/".toList.map PatChar.lit)

/-- The `[a-zA-Z0-9]` character class (ASCII letters and digits). -/
def isLinkAlnum (c : Char) : Bool := c.isAlpha || c.isDigit

/-- Match a list of pattern atoms at the front of the input: the
consumed characters and the rest, or `none`. -/
def matchPat : List PatChar → List Char → Option (List Char × List Char)
  | [], s => some ([], s)
  | _ :: _, [] => none
  | p :: ps, c :: s =>
    let step := fun (u : List Char × List Char) => (c :: u.1, u.2)
    match p with
    | .lit d => if c = d then (matchPat ps s).map step else none
    | .any => (matchPat ps s).map step

/-- Match the whole invite-link regex anchored at the front of the
input: the fixed part followed by a non-empty maximal `[a-zA-Z0-9]+`
run (greedy, with nothing after it in the pattern). -/
def matchLinkAt (s : List Char) : Option (List Char) :=
  match matchPat linkPat s with
  | none => none
  | some (u, rest) =>
    let run := rest.takeWhile isLinkAlnum
    if run.isEmpty then none else some (u ++ run)

/-- Leftmost match: try the pattern at each start position in order. -/
def firstLinkMatch : List Char → Option (List Char)
  | [] => none
  | c :: s =>
    match matchLinkAt (c :: s) with
    | some m => some m
    | none => firstLinkMatch s

/-- `clipboard.match(linkRegex)` followed by `match ? match[0] : null`. -/
def jsMatchLink (s : String) : Option String :=
  (firstLinkMatch s.toList).map List.asString

/-- A string that the invite-link regex matches in full: the fixed part
(dots wild) followed by a non-empty all-alphanumeric remainder. -/
def matchesLinkRegex (s : String) : Bool :=
  match matchPat linkPat s.toList with
  | none => false
  | some (_, rest) => !rest.isEmpty && rest.all isLinkAlnum

/-- Environment of one `clickShareLinkButton()` call: the pane
environment; for each of the three `waitForSelector` calls (invite
button, copy-invitation control, close-dialog button) whether the
element appears within its 5 s window (a timeout rejects and is caught,
yielding null); whether each click rejects; whether the hidden-wait for
the dialog to disappear resolves within its window; whether the
clipboard read rejects and the text it yields; whether `viewport()` is
non-null and whether the mouse move rejects. -/
structure ShareEnv where
  pane : PaneEnv
  inviteFound : Bool
  inviteClickThrows : Bool
  copyFound : Bool
  copyClickThrows : Bool
  closeFound : Bool
  closeClickThrows : Bool
  dialogHides : Bool
  clipboardThrows : Bool
  clipboard : String
  viewportPresent : Bool
  mouseMoveThrows : Bool
deriving DecidableEq, Repr

/-- `PuppeteerAgent.clickShareLinkButton()`: null when there is no page
or the pane fails to open; then, in source order, each failing await
(selector timeout, click rejection, dialog not disappearing, clipboard
read rejection, mouse-move rejection) is caught by the outer catch
(which closes the pane) and yields null; on the full happy path the
clipboard text is matched against the invite-link regex and the match
(or null) is returned. -/
def clickShareLinkButton (a : AgentState) (env : ShareEnv) : Option String :=
  if a.page = none then none
  else if !openParticipantsPane a env.pane then none
  else if !env.inviteFound then none
  else if env.inviteClickThrows then none
  else if !env.copyFound then none
  else if env.copyClickThrows then none
  else if !env.closeFound then none
  else if env.closeClickThrows then none
  else if !env.dialogHides then none
  else if env.clipboardThrows then none
  else if env.viewportPresent && env.mouseMoveThrows then none
  else jsMatchLink env.clipboard

/-- Environment of one `getMeetingDuration()` call. -/
structure DurationEnv where
  timerFound : Bool
  timerText : String
  evalThrows : Bool
deriving DecidableEq, Repr

/-- `PuppeteerAgent.getMeetingDuration()`: null without a page, null
when the timer element is absent or the text read rejects, otherwise
the timer text. -/
def getMeetingDuration (a : AgentState) (env : DurationEnv) : Option String :=
  if a.page = none then none
  else if !env.timerFound then none
  else if env.evalThrows then none
  else some env.timerText

/-- Environment of one `getScreenshot()` call: whether the screenshot
promise rejects, and the image bytes it yields when it resolves. -/
structure ScreenshotEnv where
  screenshotRejects : Bool
  bytes : List Nat
deriving DecidableEq, Repr

/-- `PuppeteerAgent.getScreenshot()`: when a page exists the source
does `return this.page.screenshot()` — the promise is returned
*without* `await`, so its rejection happens after the try block has
finished and escapes the surrounding try/catch (whose `return null` is
dead for it), rejecting at the caller; `.error ()` models that.  When
no page exists the function falls through and resolves with
`undefined` (modelled, like `null`, as `none`). -/
def getScreenshot (a : AgentState) (env : ScreenshotEnv) :
    Except Unit (Option (List Nat)) :=
  if a.page.isSome then
    if env.screenshotRejects then .error () else .ok (some env.bytes)
  else .ok none

example : jsMatchLink "join https://jitsi.3git.eu/Room7 now"
    = some "https://jitsi.3git.eu/Room7" := by decide
example : jsMatchLink "https://jitsi.3git.eu/" = none := by decide
example : jsMatchLink "https://jitsiX3gitYeu/abc"
    = some "https://jitsiX3gitYeu/abc" := by decide
example : matchesLinkRegex "https://jitsi.3git.eu/Room7" = true := by decide

/-! ## Cold start -/

/-- Environment of one `coldStart()` call: whether each awaited step of
the throwaway session (launch, newPage, goto example.com, the
`waitForFunction` for the title to equal `"Example Domain"` within its
10 s window, the final browser close) rejects.  `titleSeen` is true
exactly when the page title equals the expected literal within the wait
window (otherwise `waitForFunction` times out and rejects). -/
structure ColdEnv where
  launchThrows : Bool
  newPageThrows : Bool
  gotoThrows : Bool
  titleSeen : Bool
  closeThrows : Bool
deriving DecidableEq, Repr

/-- The try block of `coldStart()`: `none` models a rejection of one of
its awaits, `some true` the successful run through
launch → newPage → goto → title wait → close → `return true`. -/
def coldStartTry (env : ColdEnv) : Option Bool :=
  if env.launchThrows then none
  else if env.newPageThrows then none
  else if env.gotoThrows then none
  else if !env.titleSeen then none
  else if env.closeThrows then none
  else some true

/-- `PuppeteerAgent.coldStart()`: the whole body sits in a try whose
catch only logs and returns `false`, so every rejection inside the try
degrades to `false` and `coldStart` always resolves with a boolean.
It touches none of the calling agent's fields (the session is a local
`tempBrowser`). -/
def coldStart (env : ColdEnv) : Bool :=
  match coldStartTry env with
  | some b => b
  | none => false

/-! ## Persistence (utils: saveAgentsToFile / loadAgentsFromFile)

The snapshot file holds one JSON document; the fragment of JSON the
snapshot can use (strings, booleans, objects) is embedded as `Json`.
`JSON.stringify` / `JSON.parse` round-trip these values exactly, so the
file is modelled at the level of the parsed document. -/

/-- The JSON values the agents snapshot uses. -/
inductive Json
  | str (s : String)
  | bool (b : Bool)
  | null
  | obj (fields : List (String × Json))

/-- Property access `j[k]` on a parsed JSON value. -/
def getField (j : Json) (k : String) : Option Json :=
  match j with
  | .obj fs => (fs.find? fun p => p.1 == k).map Prod.snd
  | _ => none

/-- A field read expecting a string. -/
def asStr : Option Json → Option String
  | some (.str s) => some s
  | _ => none

/-- A field read expecting a boolean. -/
def asBool : Option Json → Option Bool
  | some (.bool b) => some b
  | _ => none

/-- `JSON.stringify` of one `AgentConfig`: its fields as a JSON object
(`JSON.stringify` omits an absent optional field). -/
def encodeConfig (c : AgentConfig) : Json :=
  Json.obj
    ([("startUrl", Json.str c.startUrl), ("headless", Json.bool c.headless),
      ("scrapeData", Json.bool c.scrapeData), ("muteAudio", Json.bool c.muteAudio)]
      ++ match c.id with
         | some s => [("id", Json.str s)]
         | none => [])

/-- Reading one saved config back off the parsed document, by the field
accesses the program later performs on it (`loadAgentsFromFile` itself
does no runtime validation — it is a TypeScript cast — but every value
`saveAgentsToFile` writes decodes successfully, which is all the
round-trip needs). -/
def decodeConfig (j : Json) : Option AgentConfig :=
  match asStr (getField j "startUrl"), asBool (getField j "headless"),
      asBool (getField j "scrapeData"), asBool (getField j "muteAudio") with
  | some u, some h, some sc, some m =>
    some { startUrl := u, headless := h, scrapeData := sc, muteAudio := m,
           id := asStr (getField j "id") }
  | _, _, _, _ => none

/-- The in-memory registry `agents: { [id: string]: PuppeteerAgent }`:
an association list with distinct keys, in insertion order (JavaScript
string-keyed objects preserve insertion order). -/
abbrev Registry := List (String × AgentState)

/-- `utils.saveAgentsToFile(agents)`: serializes `{id → getConfig()}`
for every agent in the map to a single JSON document (live session
state is never persisted). -/
def saveAgentsToFile (agents : Registry) : Json :=
  Json.obj (agents.map fun p => (p.1, encodeConfig (getConfig p.2)))

/-- `utils.loadAgentsFromFile()`: `none` models a missing (or empty)
snapshot file, yielding an empty registry; a parsed document that is
not an object likewise yields an empty registry (load failure is
logged); otherwise one fresh idle agent (`new PuppeteerAgent(config)`)
is constructed per saved entry. -/
def loadAgentsFromFile (file : Option Json) : Registry :=
  match file with
  | none => []
  | some (Json.obj fields) =>
    fields.filterMap fun p => (decodeConfig p.2).map fun c => (p.1, mkAgent c)
  | some _ => []

/-! ## Registry HTTP handlers (api module) -/

/-- `agents[id]` lookup. -/
def lookupAgent (reg : Registry) (id : String) : Option AgentState :=
  ((reg : List (String × AgentState)).find? fun p => p.1 == id).map Prod.snd

/-- `agents[id] = a`: overwrite when the key exists, append otherwise
(JavaScript object assignment). -/
def setAgent (reg : Registry) (id : String) (a : AgentState) : Registry :=
  if (lookupAgent reg id).isSome then
    (reg : List (String × AgentState)).map fun p => if p.1 == id then (p.1, a) else p
  else
    (reg : List (String × AgentState)) ++ [(id, a)]

/-- The key list of the registry, in order. -/
def regIds (reg : Registry) : List String :=
  (reg : List (String × AgentState)).map Prod.fst

/-- Response of `POST /agent/:id/start`. -/
inductive StartResp
  | notFound
  | started
  | failedFalsy
  | failedThrow
deriving DecidableEq, Repr

/-- `POST /agent/:id/start`: 404 when the id is unknown; otherwise
awaits `agents[id].start()` inside a try — a falsy resolution would
answer 500 "Failed to start agent" (`failedFalsy`), a rejection is
caught and answers 500 (`failedThrow`), resolution with a truthy value
answers "Agent started" (`started`).  The agent object is mutated in
place. -/
def startHandler (reg : Registry) (id : String) (env : StartEnv) :
    Registry × StartResp :=
  match lookupAgent reg id with
  | none => (reg, .notFound)
  | some a =>
    let r := startFn a env
    let reg1 := setAgent reg id r.final
    match r.result with
    | none => (reg1, .failedThrow)
    | some b => if b then (reg1, .started) else (reg1, .failedFalsy)

/-- The hardcoded config of the temporary agent the exec handler's
`cold_start` branch creates. -/
def coldConfig : AgentConfig :=
  { startUrl := "https://example.com", scrapeData := false,
    headless := false, muteAudio := true, id := none }

/-- Environment of one `POST /agent/:id/exec` call: the fresh
`crypto.randomUUID()` the `cold_start` branch would use, and the
environments of the routine the body's `code` selects. -/
structure ExecEnv where
  freshId : String
  share : ShareEnv
  listing : ListEnv
  cold : ColdEnv
deriving Repr

/-- Response of `POST /agent/:id/exec`. -/
inductive ExecResp
  | notFound
  | okShare (r : Option String)
  | okList (r : Option (List Participant))
  | okCold (b : Bool)
  | unknownCode
deriving DecidableEq, Repr

/-- `POST /agent/:id/exec`: 404 when the id is unknown; `share_link`
and `list_participants` run the routine on the agent (neither writes an
agent field, so the registry is unchanged); `cold_start` constructs a
fresh `PuppeteerAgent` with the hardcoded config, stores it at
`agents[crypto.randomUUID()]` — it is never removed — and runs
`coldStart()` on it (which touches no agent field); any other code
answers 400. -/
def execHandler (reg : Registry) (id : String) (code : String) (env : ExecEnv) :
    Registry × ExecResp :=
  match lookupAgent reg id with
  | none => (reg, .notFound)
  | some a =>
    if code == "share_link" then
      (reg, .okShare (clickShareLinkButton a env.share))
    else if code == "list_participants" then
      (reg, .okList (listParticipants a env.listing))
    else if code == "cold_start" then
      (setAgent reg env.freshId (mkAgent coldConfig), .okCold (coldStart env.cold))
    else
      (reg, .unknownCode)

/-- Response of `POST /agent/create`. -/
inductive CreateResp
  | created (agentId : String)
  | failed
deriving DecidableEq, Repr

/-- `POST /agent/create`: stores `new PuppeteerAgent(body)` at a fresh
`crypto.randomUUID()` and persists the map. -/
def createHandler (reg : Registry) (freshId : String) (c : AgentConfig) :
    Registry × CreateResp :=
  (setAgent reg freshId (mkAgent c), .created freshId)

/-- Response of `DELETE /agent/:id`. -/
inductive DeleteResp
  | notFound
  | deleted
  | failed
deriving DecidableEq, Repr

/-- `DELETE /agent/:id`: 404 when the id is unknown; otherwise awaits
`agents[id].stop()` (a rejection is caught and answers 500 with the
entry still in the map, since `delete agents[id]` is skipped), then
removes the entry and persists the map. -/
def deleteHandler (reg : Registry) (id : String) (e : StopEnv) :
    Registry × DeleteResp :=
  match lookupAgent reg id with
  | none => (reg, .notFound)
  | some a =>
    let r := stopFn a e
    if r.threw then
      (setAgent reg id r.state, .failed)
    else
      ((setAgent reg id r.state).filter fun p => !(p.1 == id), .deleted)

/-! ## Lifecycle lemmas -/

/-- `stop()` under an environment whose close calls succeed: both
handles are cleared, the status becomes `stopped`, nothing is thrown. -/
theorem stop_clean (a : AgentState) (e : StopEnv) (h : cleanStop e = true) :
    stopFn a e =
      ⟨{ a with browser := none, page := none, status := .stopped }, false⟩ := by
  obtain ⟨h1, h2⟩ : e.pageCloseThrows = false ∧ e.browserCloseThrows = false := by
    rcases e with ⟨ep, eb⟩
    simpa [cleanStop, Bool.and_eq_true] using h
  rcases a with ⟨ob, op, cfg, st⟩
  cases ob <;> cases op <;> simp [stopFn, h1, h2]

/-- `stop()` on an agent with no live handles: only the status changes,
to `stopped`, whatever the close environment. -/
theorem stop_nohandles (a : AgentState) (e : StopEnv)
    (hb : a.browser = none) (hp : a.page = none) :
    stopFn a e = ⟨{ a with status := .stopped }, false⟩ := by
  rcases a with ⟨ob, op, cfg, st⟩
  simp only at hb hp
  subst hb hp
  simp [stopFn]

/-- The final state of `start()`'s outer catch block, when the teardown
close calls succeed. -/
theorem startOuterCatch_clean_final (s : AgentState) (tr : List AgentState)
    (e : StopEnv) (h : cleanStop e = true) :
    (startOuterCatch s tr e).final =
      { browser := none, page := none, config := s.config, status := .stopped } := by
  simp [startOuterCatch, stop_clean _ _ h]

/-- `start()`'s outer catch block always rejects. -/
theorem startOuterCatch_result (s : AgentState) (tr : List AgentState)
    (e : StopEnv) : (startOuterCatch s tr e).result = none := rfl

/-- `start()` resolves only with `true`: its result is `some true` or a
rejection, for every agent state and environment. -/
theorem start_result_cases (a : AgentState) (env : StartEnv) :
    (startFn a env).result = some true ∨ (startFn a env).result = none := by
  rcases env with ⟨l, p, n, g, ev, e1, e2⟩
  cases l <;> cases p <;> cases n <;> cases g <;> cases ev <;>
    cases hsc : a.config.scrapeData <;>
    simp [startFn, startOuterCatch_result, hsc]

/-- Under an environment whose internal teardown close calls succeed,
`start()` ends either running with both handles live, or stopped with
both handles null. -/
theorem start_clean_cases (a : AgentState) (env : StartEnv)
    (h : cleanStart env = true) :
    (startFn a env).final =
      { browser := some (), page := some (), config := a.config, status := .running } ∨
    (startFn a env).final =
      { browser := none, page := none, config := a.config, status := .stopped } := by
  obtain ⟨h1, h2⟩ :
      cleanStop env.stopOnNavError = true ∧ cleanStop env.stopOnError = true := by
    rcases env with ⟨l, p, n, g, ev, e1, e2⟩
    simpa [cleanStart, Bool.and_eq_true] using h
  rcases env with ⟨l, p, n, g, ev, e1, e2⟩
  simp only at h1 h2
  cases l <;> cases p <;> cases n <;> cases g <;> cases ev <;>
    cases hsc : a.config.scrapeData <;>
    simp [startFn, startOuterCatch_clean_final _ _ _ h2, stop_clean _ _ h1, hsc]

/-! ## C1 — start() on an unreachable start URL -/

/-- A start environment in which only navigation fails. -/
def envNavFail : StartEnv :=
  ⟨false, false, false, true, false, ⟨false, false⟩, ⟨false, false⟩⟩

/-- C1 counterexample: on a navigation failure (launch, permissions and
newPage succeed; `goto` rejects; teardown closes succeed) the agent's
final status is `stopped`, not `error` as the claim states — the inner
catch sets `error` but then invokes `stop()`, which overwrites the
status with `stopped`. -/
theorem C1_status_not_error :
    (startFn (mkAgent cfg0) envNavFail).final.status = .stopped ∧
    ¬ (startFn (mkAgent cfg0) envNavFail).final.status = .error := by decide

/-- C1 (amended): `start()` on a config whose start URL is unreachable
(navigation rejects after a successful launch/permission/newPage) ends
with status `stopped` — the transient `error` status is overwritten by
the automatic `stop()` — with no leaked session (browser and page
handles both null) and the navigation error re-raised to the caller,
provided the teardown close calls of the navigation-failure cleanup
succeed. -/
theorem C1_start_nav_failure_stops (a : AgentState) (env : StartEnv)
    (hl : env.launchThrows = false) (hp : env.permThrows = false)
    (hn : env.newPageThrows = false) (hg : env.gotoThrows = true)
    (hc : cleanStop env.stopOnNavError = true) :
    (startFn a env).final.status = .stopped ∧
    (startFn a env).final.browser = none ∧
    (startFn a env).final.page = none ∧
    (startFn a env).result = none := by
  rcases env with ⟨l, p, n, g, ev, e1, e2⟩
  simp only at hl hp hn hg hc
  subst hl hp hn hg
  have hstop := stop_clean
    { browser := some (), page := some (), config := a.config,
      status := AgentStatus.error } e1 hc
  simp [startFn, startOuterCatch, hstop, stop_nohandles]

/-- C1 witness: the amended theorem applied to a concrete idle agent
and the concrete navigation-failure environment. -/
theorem C1_start_nav_failure_witness :
    (startFn (mkAgent cfg0) envNavFail).final.status = .stopped ∧
    (startFn (mkAgent cfg0) envNavFail).final.browser = none ∧
    (startFn (mkAgent cfg0) envNavFail).final.page = none ∧
    (startFn (mkAgent cfg0) envNavFail).result = none :=
  C1_start_nav_failure_stops (mkAgent cfg0) envNavFail rfl rfl rfl rfl rfl

/-! ## C3 — stop() idempotent and total -/

/-- C3 counterexample: when `browser.close()` rejects, `stop()` itself
rejects (the close sits in a `finally` with no surrounding try) and the
status is left unchanged — here `running`, not `stopped`. -/
theorem C3_throwing_close :
    (stopFn agentRunning ⟨false, true⟩).threw = true ∧
    ¬ (stopFn agentRunning ⟨false, true⟩).state.status = .stopped := by decide

/-- C3 (amended): provided the browser-session close does not throw
(page-close errors are swallowed by `stop()`'s try/catch), `stop()` is
idempotent and total: called twice in a row from any state it never
throws and leaves the status `stopped` after each call. -/
theorem C3_stop_twice_stopped (a : AgentState) (e1 e2 : StopEnv)
    (h1 : e1.browserCloseThrows = false) (h2 : e2.browserCloseThrows = false) :
    (stopFn a e1).threw = false ∧
    (stopFn a e1).state.status = .stopped ∧
    (stopFn (stopFn a e1).state e2).threw = false ∧
    (stopFn (stopFn a e1).state e2).state.status = .stopped := by
  rcases a with ⟨ob, op, cfg, st⟩
  rcases e1 with ⟨p1, b1⟩
  rcases e2 with ⟨p2, b2⟩
  simp only at h1 h2
  subst h1 h2
  cases ob <;> cases op <;> cases p1 <;> cases p2 <;> simp [stopFn]

/-- C3 witness: the amended theorem at a running agent whose page close
rejects on the first call (teardown errors swallowed). -/
theorem C3_stop_twice_witness :
    (stopFn agentRunning ⟨true, false⟩).threw = false ∧
    (stopFn agentRunning ⟨true, false⟩).state.status = .stopped ∧
    (stopFn (stopFn agentRunning ⟨true, false⟩).state ⟨false, false⟩).threw = false ∧
    (stopFn (stopFn agentRunning ⟨true, false⟩).state ⟨false, false⟩).state.status
      = .stopped :=
  C3_stop_twice_stopped agentRunning ⟨true, false⟩ ⟨false, false⟩ rfl rfl

/-! ## C5 — listParticipants() -/

/-- C5: `listParticipants()` returns null when the participants pane
fails to open, when zero rows are found, and when a row query rejects;
any returned list has one entry per participant row, each with boolean
`videoMuted` / `audioMuted` fields; and on the happy path a list is
returned. -/
theorem C5_listParticipants_shape (a : AgentState) (env : ListEnv) :
    (openParticipantsPane a env.pane = false → listParticipants a env = none) ∧
    (env.rows = [] → listParticipants a env = none) ∧
    (env.rowQueryThrows = true → listParticipants a env = none) ∧
    (∀ l, listParticipants a env = some l →
      l.length = env.rows.length ∧
      ∀ q ∈ l, (q.videoMuted = true ∨ q.videoMuted = false) ∧
        (q.audioMuted = true ∨ q.audioMuted = false)) ∧
    (a.page = some () → openParticipantsPane a env.pane = true →
      ¬ env.rows = [] → env.rowQueryThrows = false →
      (listParticipants a env).isSome = true) := by
  rcases env with ⟨pe, rows, rq⟩
  refine ⟨?_, ?_, ?_, ?_, ?_⟩
  · intro h
    by_cases hp : a.page = none <;> simp [listParticipants, hp, h]
  · intro h
    subst h
    by_cases hp : a.page = none <;>
      cases ho : openParticipantsPane a pe <;> simp [listParticipants, hp, ho]
  · intro h
    subst h
    by_cases hp : a.page = none <;>
      cases ho : openParticipantsPane a pe <;> simp [listParticipants, hp, ho]
  · intro l hl
    by_cases hp : a.page = none
    · simp [listParticipants, hp] at hl
    · simp [listParticipants, hp] at hl
      obtain ⟨-, -, -, hmap⟩ := hl
      subst hmap
      refine ⟨by simp, ?_⟩
      intro q _
      exact ⟨Bool.eq_false_or_eq_true _, Bool.eq_false_or_eq_true _⟩
  · intro h1 h2 h3 h4
    subst h4
    cases rows with
    | nil => exact absurd rfl h3
    | cons r rs => simp [listParticipants, h1, h2]

/-! ## C7 — coldStart() -/

/-- C7: `coldStart()` resolves with `true` only when the reference
page's title equals the expected literal within the wait window; a
launch, newPage, navigation or title-wait failure yields `false`; and
every rejection inside the try block is caught and degrades to `false`
(the catch only logs), so `coldStart()` never rejects. -/
theorem C7_coldStart_title (env : ColdEnv) :
    (coldStart env = true → env.titleSeen = true) ∧
    ((env.launchThrows = true ∨ env.newPageThrows = true ∨
      env.gotoThrows = true ∨ env.titleSeen = false) → coldStart env = false) ∧
    (coldStartTry env = none → coldStart env = false) := by
  rcases env with ⟨l, n, g, t, c⟩
  cases l <;> cases n <;> cases g <;> cases t <;> cases c <;>
    simp [coldStart, coldStartTry]

/-! ## C9 — getScreenshot() -/

/-- C9: the failure path of `getScreenshot()` is not degraded to null.
With a live page whose screenshot promise rejects, the rejection
propagates to the caller (`.error ()`), because the source returns the
promise without awaiting it and the catch never fires; with no page the
call resolves empty; with a successful screenshot it resolves with the
image bytes. -/
theorem C9_screenshot_rejects :
    getScreenshot agentRunning ⟨true, []⟩ = Except.error () ∧
    getScreenshot (mkAgent cfg0) ⟨true, []⟩ = Except.ok none ∧
    getScreenshot agentRunning ⟨false, [1, 2, 3]⟩ = Except.ok (some [1, 2, 3]) :=
  ⟨rfl, rfl, rfl⟩

/-! ## C10 — start() never returns false -/

/-- C10: `start()` either resolves with `true` or rejects — it never
resolves with `false` — so the HTTP start handler answers not-found,
started, or caught-exception, and its branch for a falsy resolution
(`failedFalsy`) is unreachable. -/
theorem C10_start_never_false (reg : Registry) (id : String) (a : AgentState)
    (env : StartEnv) :
    ((startFn a env).result = some true ∨ (startFn a env).result = none) ∧
    ((startHandler reg id env).2 = .notFound ∨
     (startHandler reg id env).2 = .started ∨
     (startHandler reg id env).2 = .failedThrow) := by
  refine ⟨start_result_cases a env, ?_⟩
  rcases hl : lookupAgent reg id with _ | b
  · simp [startHandler, hl]
  · rcases start_result_cases b env with hr | hr <;> simp [startHandler, hl, hr]

/-! ## C2 — registry mutation -/

/-- A key outside the registry's id list has no agent. -/
theorem lookupAgent_eq_none (reg : Registry) (id : String)
    (h : ¬ id ∈ regIds reg) : lookupAgent reg id = none := by
  have hf : (reg.find? fun p => p.1 == id) = none := by
    rw [List.find?_eq_none]
    intro p hp hbeq
    rw [beq_iff_eq] at hbeq
    exact h (hbeq ▸ List.mem_map_of_mem Prod.fst hp)
  simp [lookupAgent, hf]

/-- Storing under a key not yet in the map appends it. -/
theorem regIds_setAgent_new (reg : Registry) (id : String) (a : AgentState)
    (h : lookupAgent reg id = none) :
    regIds (setAgent reg id a) = regIds reg ++ [id] := by
  simp [setAgent, h, regIds]

/-- A concrete exec environment (happy-path routine environments and
the fresh UUID `"b"`). -/
def execEnv0 : ExecEnv :=
  { freshId := "b",
    share := { pane := ⟨true, true⟩, inviteFound := true,
               inviteClickThrows := false, copyFound := true,
               copyClickThrows := false, closeFound := true,
               closeClickThrows := false, dialogHides := true,
               clipboardThrows := false,
               clipboard := "https://jitsi.3git.eu/Room7",
               viewportPresent := true, mouseMoveThrows := false },
    listing := { pane := ⟨true, true⟩, rows := [], rowQueryThrows := false },
    cold := ⟨false, false, false, true, false⟩ }

/-- C2 counterexample: `POST /agent/:id/exec` with code `cold_start` on
a one-agent registry inserts a second agent (under the fresh UUID) into
the identifier map — the claim says the exec handler never adds an
agent to the map. -/
theorem C2_exec_cold_start_inserts :
    regIds (execHandler [("a", mkAgent cfg0)] "a" "cold_start" execEnv0).1
      = ["a", "b"] ∧
    ¬ regIds (execHandler [("a", mkAgent cfg0)] "a" "cold_start" execEnv0).1
      = regIds [("a", mkAgent cfg0)] := by decide

/-- C2 (amended): the identifier map is mutated only by the create and
delete endpoints and by the exec handler's `cold_start` branch, which
inserts a fresh temporary agent that is never removed: exec with any
other code (including `share_link`, `list_participants` and unknown
codes) leaves the map unchanged, and exec `cold_start` on an existing
agent appends exactly the fresh identifier. -/
theorem C2_exec_registry_mutation (reg : Registry) (id code : String)
    (env : ExecEnv) :
    (¬ code = "cold_start" → (execHandler reg id code env).1 = reg) ∧
    ((lookupAgent reg id).isSome = true → ¬ env.freshId ∈ regIds reg →
      regIds (execHandler reg id "cold_start" env).1
        = regIds reg ++ [env.freshId]) := by
  constructor
  · intro hc
    rcases hl : lookupAgent reg id with _ | a
    · simp [execHandler, hl]
    · by_cases h1 : code = "share_link"
      · simp [execHandler, hl, h1]
      · by_cases h2 : code = "list_participants"
        · simp [execHandler, hl, h1, h2]
        · simp [execHandler, hl, h1, h2, hc]
  · intro hs hf
    rcases hl : lookupAgent reg id with _ | a
    · rw [hl] at hs
      simp at hs
    · have hnone := lookupAgent_eq_none reg env.freshId hf
      simp [execHandler, hl, regIds_setAgent_new _ _ _ hnone]

/-! ## C4 — persistence round-trip -/

/-- Reading back an encoded config yields the config. -/
theorem decode_encode (c : AgentConfig) :
    decodeConfig (encodeConfig c) = some c := by
  rcases c with ⟨u, h, sc, m, oid⟩
  cases oid <;> rfl

/-- Loading the saved snapshot reconstructs one fresh idle agent per
saved entry. -/
theorem load_save (agents : Registry) :
    loadAgentsFromFile (some (saveAgentsToFile agents)) =
      agents.map (fun p => (p.1, mkAgent (getConfig p.2))) := by
  simp only [loadAgentsFromFile, saveAgentsToFile]
  induction agents with
  | nil => rfl
  | cons x xs ih => simp [decode_encode, ih]

/-- C4: registry persistence round-trips — saving any map of agents to
the snapshot document and loading it back (as after a restart) yields
one agent per saved entry, in order: the same identifiers, a config
identical to the saved agent's config, status `idle`, and null
browser/page handles (live sessions are never persisted). -/
theorem C4_persistence_roundtrip (agents : Registry)
    (_hids : (regIds agents).Nodup) :
    loadAgentsFromFile (some (saveAgentsToFile agents)) =
      agents.map (fun p => (p.1, mkAgent (getConfig p.2))) ∧
    (loadAgentsFromFile (some (saveAgentsToFile agents))).length
      = agents.length ∧
    (∀ q ∈ loadAgentsFromFile (some (saveAgentsToFile agents)),
      q.2.status = .idle ∧ q.2.browser = none ∧ q.2.page = none) := by
  have hmain := load_save agents
  refine ⟨hmain, by rw [hmain]; simp, ?_⟩
  intro q hq
  rw [hmain] at hq
  obtain ⟨p, -, rfl⟩ := List.mem_map.mp hq
  exact ⟨rfl, rfl, rfl⟩

/-- A two-agent registry, one agent running with a live session. -/
def reg2 : Registry := [("a", mkAgent cfg0), ("b", agentRunning)]

/-- C4 witness: the round-trip theorem at a concrete two-agent registry
(one of the agents running, whose live session is dropped). -/
theorem C4_roundtrip_witness :
    loadAgentsFromFile (some (saveAgentsToFile reg2)) =
      reg2.map (fun p => (p.1, mkAgent (getConfig p.2))) ∧
    (loadAgentsFromFile (some (saveAgentsToFile reg2))).length = reg2.length ∧
    (∀ q ∈ loadAgentsFromFile (some (saveAgentsToFile reg2)),
      q.2.status = .idle ∧ q.2.browser = none ∧ q.2.page = none) :=
  C4_persistence_roundtrip reg2 (by decide)

/-! ## C6 — clickShareLinkButton() -/

/-- A successful pattern match splits the input: the input is the
consumed part followed by the rest, and the same pattern consumes the
same part whatever follows it. -/
theorem matchPat_sound (ps : List PatChar) :
    ∀ s u r, matchPat ps s = some (u, r) →
      s = u ++ r ∧ ∀ x, matchPat ps (u ++ x) = some (u, x) := by
  induction ps with
  | nil =>
    intro s u r h
    simp only [matchPat, Option.some.injEq, Prod.mk.injEq] at h
    obtain ⟨rfl, rfl⟩ := h
    exact ⟨rfl, fun _ => rfl⟩
  | cons p ps ih =>
    intro s u r h
    cases s with
    | nil => simp [matchPat] at h
    | cons c s' =>
      cases p with
      | lit d =>
        simp only [matchPat] at h
        split at h
        · rename_i hc
          cases hm : matchPat ps s' with
          | none => rw [hm] at h; simp at h
          | some vr =>
            rw [hm] at h
            simp only [Option.map_some', Option.some.injEq, Prod.mk.injEq] at h
            obtain ⟨hu, hr⟩ := h
            obtain ⟨hs, hrec⟩ := ih s' vr.1 vr.2 (by rw [hm])
            subst hu hr hc
            constructor
            · simp [hs]
            · intro x
              simp [matchPat, hrec x]
        · simp at h
      | any =>
        simp only [matchPat] at h
        cases hm : matchPat ps s' with
        | none => rw [hm] at h; simp at h
        | some vr =>
          rw [hm] at h
          simp only [Option.map_some', Option.some.injEq, Prod.mk.injEq] at h
          obtain ⟨hu, hr⟩ := h
          obtain ⟨hs, hrec⟩ := ih s' vr.1 vr.2 (by rw [hm])
          subst hu hr
          constructor
          · simp [hs]
          · intro x
            simp [matchPat, hrec x]

/-- `takeWhile` only keeps elements satisfying the predicate. -/
theorem all_takeWhile_self (p : Char → Bool) (l : List Char) :
    (l.takeWhile p).all p = true := by
  induction l with
  | nil => rfl
  | cons c cs ih =>
    by_cases h : p c <;> simp [List.takeWhile_cons, h, ih]

/-- An anchored match yields a string the full regex matches. -/
theorem matchLinkAt_matches (s m : List Char)
    (h : matchLinkAt s = some m) : matchesLinkRegex m.asString = true := by
  unfold matchLinkAt at h
  cases hm : matchPat linkPat s with
  | none => rw [hm] at h; simp at h
  | some ur =>
    rw [hm] at h
    simp only at h
    split at h
    · simp at h
    · rename_i hrun
      obtain rfl := Option.some.inj h
      obtain ⟨-, hrec⟩ := matchPat_sound linkPat s ur.1 ur.2 (by rw [hm])
      rw [matchesLinkRegex, List.toList_asString,
        hrec (ur.2.takeWhile isLinkAlnum)]
      simp only [Bool.and_eq_true, Bool.not_eq_true']
      exact ⟨by simpa using hrun, all_takeWhile_self _ _⟩

/-- Every leftmost match is a string the full regex matches. -/
theorem firstLinkMatch_matches :
    ∀ l m, firstLinkMatch l = some m → matchesLinkRegex m.asString = true := by
  intro l
  induction l with
  | nil => intro m h; simp [firstLinkMatch] at h
  | cons c s ih =>
    intro m h
    rw [firstLinkMatch] at h
    cases ha : matchLinkAt (c :: s) with
    | none => rw [ha] at h; exact ih m h
    | some v =>
      rw [ha] at h
      obtain rfl := Option.some.inj h
      exact matchLinkAt_matches _ _ ha

set_option maxHeartbeats 1000000 in
/-- A non-null `clickShareLinkButton()` result is the clipboard match. -/
theorem click_some_implies (a : AgentState) (env : ShareEnv) (s : String)
    (h : clickShareLinkButton a env = some s) :
    jsMatchLink env.clipboard = some s := by
  unfold clickShareLinkButton at h
  repeat' split at h
  all_goals first
    | exact h
    | exact Option.noConfusion h

/-- The concrete C6 counterexample environment: the pane opens, all
three controls are found and clicked, the clipboard holds a matching
invite link — but the dialog never disappears, so the hidden-wait times
out. -/
def shareEnvNoHide : ShareEnv :=
  { pane := ⟨true, true⟩, inviteFound := true, inviteClickThrows := false,
    copyFound := true, copyClickThrows := false, closeFound := true,
    closeClickThrows := false, dialogHides := false, clipboardThrows := false,
    clipboard := "https://jitsi.3git.eu/Room7", viewportPresent := true,
    mouseMoveThrows := false }

/-- C6 counterexample: all three required controls are found and the
clipboard holds a string the invite-link pattern matches, yet
`clickShareLinkButton()` returns null, because the wait for the
confirmation dialog to disappear times out (a failure mode the claim
does not allow for). -/
theorem C6_dialog_hide_failure :
    (shareEnvNoHide.inviteFound && shareEnvNoHide.copyFound &&
      shareEnvNoHide.closeFound) = true ∧
    jsMatchLink shareEnvNoHide.clipboard = some "https://jitsi.3git.eu/Room7" ∧
    clickShareLinkButton agentRunning shareEnvNoHide = none := by decide

/-- C6 (amended): `clickShareLinkButton()` returns null if any of the
three required controls (invite, copy-link, close-dialog) is not found
within its wait window, or if any later step fails (a click, the wait
for the dialog to disappear, the clipboard read, the post-read mouse
positioning); every non-null result is a string the fixed invite-link
pattern matches; and when every step succeeds the result is exactly the
leftmost clipboard match — null if the clipboard does not match. -/
theorem C6_clickShareLink_spec (a : AgentState) (env : ShareEnv) :
    ((env.inviteFound = false ∨ env.copyFound = false ∨
      env.closeFound = false) → clickShareLinkButton a env = none) ∧
    (∀ s, clickShareLinkButton a env = some s →
      matchesLinkRegex s = true) ∧
    (a.page = some () → openParticipantsPane a env.pane = true →
      env.inviteFound = true → env.inviteClickThrows = false →
      env.copyFound = true → env.copyClickThrows = false →
      env.closeFound = true → env.closeClickThrows = false →
      env.dialogHides = true → env.clipboardThrows = false →
      (env.viewportPresent && env.mouseMoveThrows) = false →
      clickShareLinkButton a env = jsMatchLink env.clipboard) := by
  refine ⟨?_, ?_, ?_⟩
  · intro h
    unfold clickShareLinkButton
    rcases h with h | h | h <;> simp [h]
  · intro s hs
    have hj := click_some_implies a env s hs
    rw [jsMatchLink] at hj
    cases hm : firstLinkMatch env.clipboard.toList with
    | none => rw [hm] at hj; simp at hj
    | some m =>
      rw [hm] at hj
      obtain rfl := Option.some.inj hj
      exact firstLinkMatch_matches _ m hm
  · intro h1 h2 h3 h4 h5 h6 h7 h8 h9 h10 h11
    simp [clickShareLinkButton, h1, h2, h3, h4, h5, h6, h7, h8, h9, h10, h11]

/-! ## C8 — session handles vs status -/

/-- A start environment in which every step succeeds. -/
def envAllOk : StartEnv :=
  ⟨false, false, false, false, false, ⟨false, false⟩, ⟨false, false⟩⟩

/-- C8 counterexample: inside `start()` the claimed invariant is
violated at an observable suspension point — at the `puppeteer.launch`
await (the first trace entry) the status is already `starting` while
both session handles are still null. -/
theorem C8_starting_with_null_handles :
    ¬ (∀ s ∈ (startFn (mkAgent cfg0) envAllOk).trace,
        ((s.browser.isSome && s.page.isSome) = true ↔
          (s.status = .starting ∨ s.status = .running))) := by decide

/-- Agent states observable at operation boundaries: creation,
`start()` and `stop()` — the interaction routines and the pure getters
write no agent field — under environments whose teardown close calls
succeed. -/
inductive Reachable : AgentState → Prop
  | create (c : AgentConfig) : Reachable (mkAgent c)
  | startStep (a : AgentState) (env : StartEnv) (ha : Reachable a)
      (h : cleanStart env = true) : Reachable (startFn a env).final
  | stopStep (a : AgentState) (e : StopEnv) (ha : Reachable a)
      (h : cleanStop e = true) : Reachable (stopFn a e).state

/-- C8 (amended): at operation boundaries (not at the suspension points
inside `start()`), and provided teardown close calls succeed, each live
session field is non-null exactly when the status is `running`; the
statuses `starting` and `error` are only transient and never observed
at rest. -/
theorem C8_session_invariant (a : AgentState) (h : Reachable a) :
    (a.browser = some () ↔ a.status = .running) ∧
    (a.page = some () ↔ a.status = .running) ∧
    ¬ a.status = .starting ∧ ¬ a.status = .error := by
  induction h with
  | create c => simp [mkAgent]
  | startStep b env hb henv ih =>
    rcases start_clean_cases b env henv with hc | hc <;> rw [hc] <;> simp
  | stopStep b e hb he ih =>
    rw [stop_clean b e he]
    simp

/-- C8 witness: the amended invariant at a freshly created agent. -/
theorem C8_session_invariant_witness :
    ((mkAgent cfg0).browser = some () ↔ (mkAgent cfg0).status = .running) ∧
    ((mkAgent cfg0).page = some () ↔ (mkAgent cfg0).status = .running) ∧
    ¬ (mkAgent cfg0).status = .starting ∧ ¬ (mkAgent cfg0).status = .error :=
  C8_session_invariant (mkAgent cfg0) (Reachable.create cfg0)

end PAW
